import Mathlib

/- Batteries marks the rational-number arithmetic irreducible, which blocks
evaluation of the embedded definitions on concrete inputs; restore the
default reducibility so that decide and rfl can run them. -/
set_option allowUnsafeReducibility true in
attribute [semireducible] Rat.add Rat.sub Rat.mul Rat.inv

/- Shallow embedding of adobe/node-fetch-retry (index.js, v2.2.0).
   JS numbers are modelled as exact rationals; the few places where the code
   can meet NaN or Infinity (`getTimeRemaining` returning Infinity for a
   disabled policy, `getRetryDelay` returning NaN when called on the literal
   `false`) use the JsNum wrapper below.  Wall-clock reads, Math.random and
   the transport are oracles threaded explicitly. -/

namespace NodeFetchRetry

/-- JS error object, restricted to the fields the library reads. -/
structure JsError where
  name : String
  type : String
  message : String
deriving DecidableEq, Repr

/-- node-fetch response, restricted to the fields the library reads or writes.
The timeout field models the `response.timeout` property that line 224 of
index.js overwrites before resolving. -/
structure Response where
  status : ℚ
  statusText : String
  timeout : Option ℚ
deriving DecidableEq, Repr

/-- A JS number that may be NaN or (positive) Infinity. -/
inductive JsNum where
  | num (q : ℚ)
  | nan
  | inf
deriving DecidableEq, Repr

/-- JS strict less-than on JsNum: any comparison with NaN is false,
Infinity is greater than every finite number. -/
def JsNum.ltB : JsNum → JsNum → Bool
  | .nan, _ => false
  | _, .nan => false
  | .inf, _ => false
  | .num _, .inf => true
  | .num a, .num b => decide (a < b)

/-- JS less-or-equal on JsNum: any comparison with NaN is false,
Infinity is below only Infinity. -/
def JsNum.leB : JsNum → JsNum → Bool
  | .nan, _ => false
  | _, .nan => false
  | .inf, .inf => true
  | .inf, .num _ => false
  | .num _, .inf => true
  | .num a, .num b => decide (a ≤ b)

/-- The resolved retry options record built by retryInit (index.js lines
94-104).  socketTimeout is an Option because the forceSocketTimeout branch
(line 91) copies the raw user value, which can be undefined. -/
structure RetryPolicy where
  startTime : ℚ
  retryMaxDuration : ℚ
  retryInitialDelay : ℚ
  retryBackoff : ℚ
  retryOnHttpResponse : Response → Bool
  retryOnHttpError : JsError → Bool
  socketTimeout : Option ℚ

/-- getTimeRemaining (index.js lines 18-26).  The argument is the value
flowing through the loop: either the resolved record or the literal false
(modelled as none).  The truthiness guard on startTime and retryMaxDuration
is the test against 0; the else branch returns Infinity. -/
def getTimeRemaining (ro : Option RetryPolicy) (now : ℚ) : JsNum :=
  match ro with
  | some r =>
      if r.startTime ≠ 0 ∧ r.retryMaxDuration ≠ 0 then
        .num (max 0 (r.retryMaxDuration - (now - r.startTime)))
      else .inf
  | none => .inf

/-- isResponseTimedOut (index.js lines 33-35). -/
def isResponseTimedOut (ro : Option RetryPolicy) (now : ℚ) : Bool :=
  JsNum.leB (getTimeRemaining ro now) (.num 0)

/-- The outcome of one transport attempt: exactly one of a response or an
error, matching the two call sites of shouldRetry (index.js lines 220, 228). -/
inductive Outcome where
  | resp (r : Response)
  | err (e : JsError)

/-- shouldRetry (index.js lines 45-59).  In the resolved record the two
predicate fields are always functions (retryInit installs defaults), so the
truthiness tests on them at lines 48 and 52 always pass; the remaining
guards are the null test on error and the falsiness of the literal false. -/
def shouldRetry (ro : Option RetryPolicy) (o : Outcome) (waitTime : JsNum)
    (now : ℚ) : Bool :=
  if JsNum.ltB (getTimeRemaining ro now) waitTime then false
  else
    match ro, o with
    | some r, .err e => r.retryOnHttpError e
    | some r, .resp p => r.retryOnHttpResponse p
    | none, _ => false

/-- getRetryDelay (index.js lines 115-118).  rand is the Math.random draw of
the call.  Applied to the literal false, the property read yields undefined
and undefined + number is NaN. -/
def getRetryDelay (ro : Option RetryPolicy) (rand : ℚ) (random : Bool) :
    JsNum :=
  match ro with
  | some r =>
      .num (r.retryInitialDelay + (if random then ((⌊rand * 100⌋ : ℤ) : ℚ)
        else 99))
  | none => .nan

/-- shouldRetryOnHttpError (index.js lines 153-165), the default error
predicate. -/
def shouldRetryOnHttpError (error : JsError) : Bool :=
  if error.name = "FetchError" ∧ error.type = "system" then true
  else if error.name = "AbortError" then true
  else false

/-- The default response predicate installed at index.js line 100. -/
def defaultRetryOnHttpResponse (response : Response) : Bool :=
  decide (response.status ≥ 500)

/-- A user-supplied predicate slot: absent, a function, or a non-function
value (carrying its JS truthiness and string interpolation). -/
inductive PredVal (α : Type) where
  | undef
  | fn (f : α → Bool)
  | nonFn (tru : Bool) (str : String)

/-- Truthiness of a predicate slot. -/
def PredVal.truthyB {α : Type} : PredVal α → Bool
  | .undef => false
  | .fn _ => true
  | .nonFn t _ => t

/-- typeof v === function. -/
def PredVal.isFunction {α : Type} : PredVal α → Bool
  | .fn _ => true
  | _ => false

/-- String interpolation of a predicate slot (only non-function values ever
reach the error message that uses it). -/
def PredVal.strVal {α : Type} : PredVal α → String
  | .nonFn _ s => s
  | _ => ""

/-- The user-supplied retryOptions object (all fields optional).  Numeric
fields are none when absent. -/
structure UserRetryOptions where
  retryMaxDuration : Option ℚ
  retryInitialDelay : Option ℚ
  retryBackoff : Option ℚ
  socketTimeout : Option ℚ
  forceSocketTimeout : Bool
  retryOnHttpResponse : PredVal Response
  retryOnHttpError : PredVal JsError

/-- The empty retryOptions object. -/
def UserRetryOptions.empty : UserRetryOptions :=
  { retryMaxDuration := none, retryInitialDelay := none, retryBackoff := none,
    socketTimeout := none, forceSocketTimeout := false,
    retryOnHttpResponse := .undef, retryOnHttpError := .undef }

/-- The options.retryOptions argument: the literal false or an object
(an absent object behaves as the empty one after line 68). -/
inductive RetryOptsInput where
  | disabled
  | opts (ro : UserRetryOptions)

/-- Environment variables read by retryInit (index.js lines 72-76, 80).
Numeric fields hold the parsed value when the variable is set and parses;
forceTimeout holds the raw string; actionDeadline the numeric value of
OW_ACTION_DEADLINE (none when unset or empty). -/
structure Env where
  maxRetry : Option ℚ
  initialWait : Option ℚ
  backoff : Option ℚ
  socketTimeout : Option ℚ
  forceTimeout : Option String
  actionDeadline : Option ℚ

/-- The empty environment. -/
def Env.empty : Env :=
  { maxRetry := none, initialWait := none, backoff := none,
    socketTimeout := none, forceTimeout := none, actionDeadline := none }

/-- JS value-or-default coalescing x || d for an optional number: a present
nonzero value wins, otherwise the default. -/
def jsOr (x : Option ℚ) (d : ℚ) : ℚ :=
  match x with
  | some q => if q ≠ 0 then q else d
  | none => d

/-- Number.isInteger. -/
def isInteger (q : ℚ) : Bool := q.den == 1

/-- Truthiness of an optional number. -/
def truthyNum (x : Option ℚ) : Bool :=
  match x with
  | some q => q != 0
  | none => false

/-- Number.isInteger(v) and v greater-or-equal b, on an optional value
(false when absent), as used by each validation clause. -/
def intGE (x : Option ℚ) (b : ℚ) : Bool :=
  match x with
  | some q => isInteger q && decide (b ≤ q)
  | none => false

/-- checkParameters (index.js lines 126-146): the six validation clauses in
source order, each raising its own message. -/
def checkParameters (ro : UserRetryOptions) : Except String Unit :=
  if truthyNum ro.retryMaxDuration && !(intGE ro.retryMaxDuration 0) then
    .error "`retryMaxDuration` must not be a negative integer"
  else if truthyNum ro.retryInitialDelay && !(intGE ro.retryInitialDelay 0) then
    .error "`retryInitialDelay` must not be a negative integer"
  else if ro.retryOnHttpResponse.truthyB && !(ro.retryOnHttpResponse.isFunction) then
    .error ("\x27retryOnHttpResponse\x27 must be a function: "
      ++ ro.retryOnHttpResponse.strVal)
  else if ro.retryOnHttpError.truthyB && !(ro.retryOnHttpError.isFunction) then
    .error ("\x27retryOnHttpError\x27 must be a function: "
      ++ ro.retryOnHttpError.strVal)
  else if ro.retryBackoff.isSome && !(intGE ro.retryBackoff 1) then
    .error "`retryBackoff` must be a positive integer >= 1"
  else if truthyNum ro.socketTimeout && !(intGE ro.socketTimeout 0) then
    .error "`socketTimeout` must not be a negative integer"
  else .ok ()

/-- Resolution of retryMaxDuration (index.js lines 78-83): user value or
default, then the OpenWhisk deadline clamp.  The deadline guard is the JS
truthiness of timeTillActionTimeout, so a remaining time of exactly 0 skips
the clamp. -/
def resolveMaxDuration (ro : UserRetryOptions) (env : Env) (now : ℚ) : ℚ :=
  let requested := jsOr ro.retryMaxDuration (jsOr env.maxRetry 60000)
  match env.actionDeadline with
  | some d => if d - now ≠ 0 ∧ requested > d - now then d - now else requested
  | none => requested

/-- Resolution of socketTimeout (index.js lines 84-92): user value or
default, the half-of-maxDuration clamp, then the force override which copies
the raw (possibly undefined) user value. -/
def resolveSocketTimeout (ro : UserRetryOptions) (env : Env) (maxDur : ℚ) :
    Option ℚ :=
  let v0 := jsOr ro.socketTimeout (jsOr env.socketTimeout 30000)
  let v1 := if v0 ≥ maxDur then maxDur * (1 / 2) else v0
  if ro.forceSocketTimeout || env.forceTimeout == some "true" then
    ro.socketTimeout
  else some v1

/-- Predicate resolution (index.js lines 99-102): a function value wins,
anything else falls back to the default. -/
def resolvePred {α : Type} (v : PredVal α) (d : α → Bool) : α → Bool :=
  match v with
  | .fn f => f
  | _ => d

/-- retryInit (index.js lines 66-107).  now stands for the Date.now reads
during resolution. -/
def retryInit (input : RetryOptsInput) (env : Env) (now : ℚ) :
    Except String (Option RetryPolicy) :=
  match input with
  | .disabled => .ok none
  | .opts ro =>
    match checkParameters ro with
    | .error msg => .error msg
    | .ok _ =>
      let maxDur := resolveMaxDuration ro env now
      .ok (some {
        startTime := now
        retryMaxDuration := maxDur
        retryInitialDelay := jsOr ro.retryInitialDelay (jsOr env.initialWait 100)
        retryBackoff := jsOr ro.retryBackoff (jsOr env.backoff 2)
        retryOnHttpResponse := resolvePred ro.retryOnHttpResponse defaultRetryOnHttpResponse
        retryOnHttpError := resolvePred ro.retryOnHttpError shouldRetryOnHttpError
        socketTimeout := resolveSocketTimeout ro env maxDur })

/-- Extracts the resolved record from a retryInit result. -/
def policyOf (x : Except String (Option RetryPolicy)) : Option RetryPolicy :=
  match x with
  | .ok ro => ro
  | .error _ => none

/-- The FetchError built at index.js lines 230 and 245:
new FetchError(network timeout at url, request-timeout). -/
def fetchErrorTimeout (url : String) : JsError :=
  { name := "FetchError", type := "request-timeout",
    message := "network timeout at " ++ url }

/-- Final result of the wrapped fetch: promise resolution or rejection. -/
inductive FetchResult where
  | resolved (r : Response)
  | rejected (e : JsError)
deriving DecidableEq, Repr

/-- Oracles for one call: the transport outcome of each loop iteration, the
Math.random draw of each iteration, and the Date.now reads at the top-of-loop
check and inside shouldRetry of each iteration (0-based iteration index). -/
structure LoopOracles where
  transport : ℕ → Outcome
  rand : ℕ → ℚ
  nowAtLoopCheck : ℕ → ℚ
  nowAtRetryCheck : ℕ → ℚ

/-- The mutable state of the retry loop: the retryOptions value (whose
retryInitialDelay field is updated at line 243), whether options.signal is
set (caller-supplied or installed at line 214), and the attempt counter. -/
structure LoopState where
  ro : Option RetryPolicy
  signalSet : Bool
  attempt : ℕ

/-- Initial loop state: callerSignal records whether the caller passed an
options.signal of its own. -/
def initialState (ro : Option RetryPolicy) (callerSignal : Bool) : LoopState :=
  { ro := ro, signalSet := callerSignal, attempt := 0 }

/-- The timer-arming condition of index.js line 211 for the iteration that
starts in state st: a fresh AbortController and setTimeout are created iff
options.signal is unset and retryOptions.socketTimeout is truthy. -/
def armsTimer (st : LoopState) : Bool :=
  !st.signalSet &&
    (match st.ro with
     | some r => match r.socketTimeout with
       | some q => q != 0
       | none => false
     | none => false)

/-- The delay update of index.js line 243. -/
def bumpDelay (ro : Option RetryPolicy) : Option RetryPolicy :=
  ro.map (fun r => { r with retryInitialDelay := r.retryInitialDelay * r.retryBackoff })

/-- Result of one loop iteration: terminal resolution/rejection, or the
state carried into the next iteration. -/
inductive StepResult where
  | done (res : FetchResult)
  | next (st : LoopState)

/-- One iteration of the while loop of wrappedFetch (index.js lines
206-244), plus the post-loop rejection (line 245) folded into the top-of-loop
check.  The state carried to the next iteration keeps options.signal set once
line 214 ran, increments the attempt counter, and applies the delay update of
line 243; clearTimeout (line 237) runs on every exit of the iteration. -/
def loopStep (url : String) (oc : LoopOracles) (st : LoopState) : StepResult :=
  let i := st.attempt
  if isResponseTimedOut st.ro (oc.nowAtLoopCheck i) then
    .done (.rejected (fetchErrorTimeout url))
  else
    let continueState : LoopState :=
      { ro := bumpDelay st.ro,
        signalSet := st.signalSet || armsTimer st,
        attempt := st.attempt + 1 }
    let waitTime := getRetryDelay st.ro (oc.rand i) true
    match oc.transport i with
    | .resp r =>
      if shouldRetry st.ro (.resp r) waitTime (oc.nowAtRetryCheck i) then
        .next continueState
      else
        .done (.resolved { r with timeout := st.ro.bind (fun p => p.socketTimeout) })
    | .err e =>
      if shouldRetry st.ro (.err e) waitTime (oc.nowAtRetryCheck i) then
        .next continueState
      else if e.name = "AbortError" then
        .done (.rejected (fetchErrorTimeout url))
      else
        .done (.rejected e)

/-- Runs the loop for at most fuel iterations; none means the bound was hit
before a terminal step (the JS loop has no such bound). -/
def runLoop (url : String) (oc : LoopOracles) : ℕ → LoopState → Option FetchResult
  | 0, _ => none
  | n + 1, st =>
    match loopStep url oc st with
    | .done res => some res
    | .next st' => runLoop url oc n st'

/-- The state at the start of iteration n (0-based), or none if the loop
reached a terminal step strictly before iteration n. -/
def stateAt (url : String) (oc : LoopOracles) : ℕ → LoopState → Option LoopState
  | 0, st => some st
  | n + 1, st =>
    match loopStep url oc st with
    | .done _ => none
    | .next st' => stateAt url oc n st'

/-- The exported module function (index.js lines 198-249): resolve the
policy, then run the retry loop.  A checkParameters throw surfaces as the
error branch before any transport use. -/
def fetchRetry (url : String) (callerSignal : Bool) (input : RetryOptsInput)
    (env : Env) (now : ℚ) (oc : LoopOracles) (fuel : ℕ) :
    Except String (Option FetchResult) :=
  match retryInit input env now with
  | .error msg => .error msg
  | .ok ro => .ok (runLoop url oc fuel (initialState ro callerSignal))

/- Concrete inputs used by counterexamples and witnesses. -/

/-- An AbortError as raised by node-fetch when a signal fires. -/
def abortErrC1 : JsError :=
  { name := "AbortError", type := "aborted",
    message := "The user aborted a request." }

/-- A system-level FetchError as raised by node-fetch on a socket error. -/
def systemErrW : JsError :=
  { name := "FetchError", type := "system", message := "socket hang up" }

/-- Oracles whose transport always raises an AbortError. -/
def ocAbort : LoopOracles :=
  { transport := fun _ => .err abortErrC1, rand := fun _ => 0,
    nowAtLoopCheck := fun _ => 0, nowAtRetryCheck := fun _ => 0 }

/-- Oracles whose transport always returns a 404 response. -/
def ocResp404 : LoopOracles :=
  { transport := fun _ => .resp { status := 404, statusText := "Not Found", timeout := none },
    rand := fun _ => 0, nowAtLoopCheck := fun _ => 0, nowAtRetryCheck := fun _ => 0 }

/-- Oracles whose transport always raises a system FetchError. -/
def ocSysErr : LoopOracles :=
  { transport := fun _ => .err systemErrW, rand := fun _ => 0,
    nowAtLoopCheck := fun _ => 0, nowAtRetryCheck := fun _ => 0 }

/-- The retryOptions of the failing socket-timeout scenario (the repository
test titled: verifies handling of socket timeout when socket times out,
after first failure). -/
def roC2 : UserRetryOptions :=
  { UserRetryOptions.empty with
    retryMaxDuration := some 300
    socketTimeout := some 500
    forceSocketTimeout := true }

/-- The resolved policy of the failing socket-timeout scenario (resolution
at time 1000). -/
def polC2 : Option RetryPolicy := policyOf (retryInit (.opts roC2) Env.empty 1000)

/-- Oracles of the failing socket-timeout scenario: attempt 1 gets an HTTP
500 ten milliseconds in, which the default predicate retries. -/
def ocC2 : LoopOracles :=
  { transport := fun _ => .resp { status := 500, statusText := "Internal Server Error", timeout := none }
    rand := fun _ => 0
    nowAtLoopCheck := fun _ => 1000
    nowAtRetryCheck := fun _ => 1010 }

/-- retryOptions requesting a 3000 ms budget. -/
def roC6 : UserRetryOptions :=
  { UserRetryOptions.empty with retryMaxDuration := some 3000 }

/-- Environment whose OpenWhisk deadline is the absolute time 5000. -/
def envC6 : Env := { Env.empty with actionDeadline := some 5000 }

/-- retryOptions passing an explicit 0 for the three coalesced numeric
fields. -/
def roC10 : UserRetryOptions :=
  { UserRetryOptions.empty with
    retryMaxDuration := some 0
    retryInitialDelay := some 0
    socketTimeout := some 0 }

/-- Environment whose OpenWhisk deadline is the absolute time 1000 (the
spec scenario: a deadline 1000 ms in the future at resolution time 0). -/
def envW6 : Env := { Env.empty with actionDeadline := some 1000 }

/-- The policy that resolution of roC6 under envW6 at time 0 produces. -/
def pW6 : RetryPolicy :=
  { startTime := 0, retryMaxDuration := 1000 - 0, retryInitialDelay := 100,
    retryBackoff := 2,
    retryOnHttpResponse := defaultRetryOnHttpResponse,
    retryOnHttpError := shouldRetryOnHttpError,
    socketTimeout := some ((1000 - 0) * (1 / 2)) }

/-- A policy with budget 10 from time 1 and always-true predicates. -/
def pW3 : RetryPolicy :=
  { startTime := 1, retryMaxDuration := 10, retryInitialDelay := 100,
    retryBackoff := 2, retryOnHttpResponse := fun _ => true,
    retryOnHttpError := fun _ => true, socketTimeout := some 5 }

/-- A 500 response. -/
def respW : Response := { status := 500, statusText := "", timeout := none }

/-- retryOptions requesting socketTimeout 5000 and maxDuration 1000. -/
def roW5 : UserRetryOptions :=
  { UserRetryOptions.empty with
    retryMaxDuration := some 1000
    socketTimeout := some 5000 }

/-- The policy resolution of roW5 produces at time 17. -/
def pW5 : RetryPolicy :=
  { startTime := 17, retryMaxDuration := 1000, retryInitialDelay := 100,
    retryBackoff := 2, retryOnHttpResponse := defaultRetryOnHttpResponse,
    retryOnHttpError := shouldRetryOnHttpError,
    socketTimeout := some (1000 * (1 / 2)) }

/-- roW5 with forceSocketTimeout set. -/
def roW5f : UserRetryOptions := { roW5 with forceSocketTimeout := true }

/-- Environment forcing the socket timeout via
NODE_FETCH_RETRY_FORCE_TIMEOUT set to the string true. -/
def envW5f : Env := { Env.empty with forceTimeout := some "true" }

/-- The policy resolution of roW5f produces at time 17. -/
def pW5f : RetryPolicy := { pW5 with socketTimeout := some 5000 }

/-- The policy resolution of empty retryOptions produces at time 1: all
defaults. -/
def pDefW : RetryPolicy :=
  { startTime := 1, retryMaxDuration := 60000, retryInitialDelay := 100,
    retryBackoff := 2, retryOnHttpResponse := defaultRetryOnHttpResponse,
    retryOnHttpError := shouldRetryOnHttpError, socketTimeout := some 30000 }

/-- A default-predicate policy with budget 10 from time 1. -/
def pW8 : RetryPolicy :=
  { startTime := 1, retryMaxDuration := 10, retryInitialDelay := 100,
    retryBackoff := 2, retryOnHttpResponse := defaultRetryOnHttpResponse,
    retryOnHttpError := shouldRetryOnHttpError, socketTimeout := some 5 }

/-- Loop state at the start of a call under pW8 with no caller signal. -/
def stW8 : LoopState := initialState (some pW8) false

/-- Oracles whose top-of-loop clock is far past the pW8 budget. -/
def ocW8a : LoopOracles :=
  { transport := fun _ => .err abortErrC1, rand := fun _ => 0,
    nowAtLoopCheck := fun _ => 10000, nowAtRetryCheck := fun _ => 10000 }

/-- Oracles entering the loop in budget but evaluating shouldRetry out of
budget, with an AbortError from the transport. -/
def ocW8b : LoopOracles :=
  { transport := fun _ => .err abortErrC1, rand := fun _ => 0,
    nowAtLoopCheck := fun _ => 1, nowAtRetryCheck := fun _ => 10000 }

/-- Like ocW8b with a system FetchError from the transport. -/
def ocW8c : LoopOracles :=
  { transport := fun _ => .err systemErrW, rand := fun _ => 0,
    nowAtLoopCheck := fun _ => 1, nowAtRetryCheck := fun _ => 10000 }

/-- A large-budget policy with always-true predicates, so every round
retries. -/
def pW4 : RetryPolicy :=
  { startTime := 1, retryMaxDuration := 1000000, retryInitialDelay := 100,
    retryBackoff := 2, retryOnHttpResponse := fun _ => true,
    retryOnHttpError := fun _ => true, socketTimeout := some 50 }

/-- Oracles with a constant clock just after pW4.startTime and a transport
that always answers 500. -/
def ocW4 : LoopOracles :=
  { transport := fun _ => .resp respW, rand := fun _ => 0,
    nowAtLoopCheck := fun _ => 1, nowAtRetryCheck := fun _ => 1 }

/-- retryOptions with a negative retryInitialDelay. -/
def roW9a : UserRetryOptions :=
  { UserRetryOptions.empty with retryInitialDelay := some (-5) }

/-- retryOptions with retryBackoff 0. -/
def roW9b : UserRetryOptions :=
  { UserRetryOptions.empty with retryBackoff := some 0 }

/-- retryOptions whose retryOnHttpResponse is the (truthy, non-callable)
number 42. -/
def roW9c : UserRetryOptions :=
  { UserRetryOptions.empty with retryOnHttpResponse := .nonFn true "42" }

/- Helper lemmas shared by the claim theorems. -/

theorem JsNum.ltB_inf_left (w : JsNum) : JsNum.ltB .inf w = false := by
  cases w <;> rfl

theorem shouldRetry_none (o : Outcome) (w : JsNum) (now : ℚ) :
    shouldRetry none o w now = false := by
  unfold shouldRetry getTimeRemaining
  rw [JsNum.ltB_inf_left]
  cases o <;> rfl

/-- Projections of a successful policy resolution: every field of the record
built at index.js lines 94-104. -/
theorem retryInit_ok (ro : UserRetryOptions) (env : Env) (now : ℚ)
    (p : RetryPolicy) (h : retryInit (.opts ro) env now = .ok (some p)) :
    p.startTime = now
    ∧ p.retryMaxDuration = resolveMaxDuration ro env now
    ∧ p.retryInitialDelay = jsOr ro.retryInitialDelay (jsOr env.initialWait 100)
    ∧ p.retryBackoff = jsOr ro.retryBackoff (jsOr env.backoff 2)
    ∧ p.retryOnHttpResponse = resolvePred ro.retryOnHttpResponse defaultRetryOnHttpResponse
    ∧ p.retryOnHttpError = resolvePred ro.retryOnHttpError shouldRetryOnHttpError
    ∧ p.socketTimeout = resolveSocketTimeout ro env (resolveMaxDuration ro env now) := by
  simp only [retryInit] at h
  cases hc : checkParameters ro with
  | error msg => rw [hc] at h; exact absurd h (by simp)
  | ok u =>
    rw [hc] at h
    simp only [Except.ok.injEq, Option.some.injEq] at h
    subst h
    exact ⟨rfl, rfl, rfl, rfl, rfl, rfl, rfl⟩

/-- A continuing loop iteration carries exactly the line 243 delay update,
the line 214 signal persistence and the attempt increment into the next
state. -/
theorem loopStep_next (url : String) (oc : LoopOracles) (st st' : LoopState)
    (h : loopStep url oc st = .next st') :
    st' = { ro := bumpDelay st.ro, signalSet := st.signalSet || armsTimer st,
            attempt := st.attempt + 1 } := by
  simp only [loopStep] at h
  split at h
  · simp at h
  · split at h
    · split at h
      · cases h
        rfl
      · simp at h
    · split at h
      · cases h
        rfl
      · split at h <;> simp at h

/-- Along the loop, after n continuing iterations the policy record still
exists, its backoff factor is unchanged and its delay field has been
multiplied by the backoff factor once per iteration. -/
theorem stateAt_ro_fields (url : String) (oc : LoopOracles) :
    ∀ (n : ℕ) (st0 st : LoopState) (p : RetryPolicy),
      st0.ro = some p → stateAt url oc n st0 = some st →
      ∃ q : RetryPolicy, st.ro = some q
        ∧ q.retryInitialDelay = p.retryInitialDelay * p.retryBackoff ^ n
        ∧ q.retryBackoff = p.retryBackoff := by
  intro n
  induction n with
  | zero =>
    intro st0 st p h0 h
    unfold stateAt at h
    simp only [Option.some.injEq] at h
    subst h
    exact ⟨p, h0, by simp, rfl⟩
  | succ n ih =>
    intro st0 st p h0 h
    unfold stateAt at h
    cases hs : loopStep url oc st0 with
    | done r =>
      rw [hs] at h
      simp at h
    | next st1 =>
      rw [hs] at h
      have h1 := loopStep_next url oc st0 st1 hs
      have hro1 : st1.ro
          = some { p with retryInitialDelay := p.retryInitialDelay * p.retryBackoff } := by
        rw [h1]
        simp [bumpDelay, h0]
      obtain ⟨q, hq, hdel, hback⟩ := ih st1 st _ hro1 h
      refine ⟨q, hq, ?_, ?_⟩
      · rw [hdel]
        show p.retryInitialDelay * p.retryBackoff * p.retryBackoff ^ n = _
        ring
      · rw [hback]

/-- The wait time of a round is the current delay plus the floored jitter,
an integer in 0..99 whenever the Math.random draw lies in [0, 1). -/
theorem getRetryDelay_bounds (q : RetryPolicy) (rand : ℚ)
    (h0 : 0 ≤ rand) (h1 : rand < 1) :
    ∃ j : ℤ, 0 ≤ j ∧ j ≤ 99 ∧
      getRetryDelay (some q) rand true = .num (q.retryInitialDelay + j) := by
  refine ⟨⌊rand * 100⌋, Int.floor_nonneg.mpr (by positivity), ?_, by
    simp [getRetryDelay]⟩
  have hlt : (⌊rand * 100⌋ : ℤ) < 100 := by
    apply Int.floor_lt.mpr
    push_cast
    nlinarith
  omega

/-- C1 counterexample: with retryOptions disabled and a caller-supplied
signal, an AbortError raised by the single attempt is not re-raised with its
original identity: the catch branch at index.js lines 229-230 replaces it
with a fresh FetchError of type request-timeout. -/
theorem C1_counterexample :
    runLoop "https://example.com/x" ocAbort 1 (initialState none true)
      = some (.rejected (fetchErrorTimeout "https://example.com/x"))
    ∧ fetchErrorTimeout "https://example.com/x" ≠ abortErrC1 := by
  exact ⟨by decide, by decide⟩

/-- C1 (amended): when retryOptions is false, exactly one transport attempt
happens (the result is fixed by the first transport outcome, for every fuel
and every oracle): a response of any status is resolved with its fields
intact except the timeout property, which is overwritten with undefined; a
non-AbortError error is re-raised with its original identity; an AbortError
is converted into a FetchError of type request-timeout naming the URL. -/
theorem C1_disabled_single_attempt (url : String) (oc : LoopOracles)
    (sig : Bool) (fuel : ℕ) (r : Response) (e : JsError) :
    (oc.transport 0 = .resp r →
      runLoop url oc (fuel + 1) (initialState none sig)
        = some (.resolved { r with timeout := none }))
    ∧ (oc.transport 0 = .err e → e.name ≠ "AbortError" →
      runLoop url oc (fuel + 1) (initialState none sig)
        = some (.rejected e))
    ∧ (oc.transport 0 = .err e → e.name = "AbortError" →
      runLoop url oc (fuel + 1) (initialState none sig)
        = some (.rejected (fetchErrorTimeout url))) := by
  refine ⟨fun htr => ?_, fun htr hne => ?_, fun htr habort => ?_⟩
  · simp [runLoop, loopStep, initialState, isResponseTimedOut,
      getTimeRemaining, JsNum.leB, htr, shouldRetry_none]
  · simp [runLoop, loopStep, initialState, isResponseTimedOut,
      getTimeRemaining, JsNum.leB, htr, shouldRetry_none, hne]
  · simp [runLoop, loopStep, initialState, isResponseTimedOut,
      getTimeRemaining, JsNum.leB, htr, shouldRetry_none, habort]

/-- C1 witness: the three branches of the amended claim at concrete
inputs. -/
theorem C1_disabled_single_attempt_witness :
    runLoop "u" ocResp404 3 (initialState none false)
      = some (.resolved { status := 404, statusText := "Not Found", timeout := none })
    ∧ runLoop "u" ocSysErr 3 (initialState none false)
      = some (.rejected systemErrW)
    ∧ runLoop "u" ocAbort 3 (initialState none false)
      = some (.rejected (fetchErrorTimeout "u")) := by
  refine ⟨?_, ?_, ?_⟩
  · exact (C1_disabled_single_attempt "u" ocResp404 false 2
      { status := 404, statusText := "Not Found", timeout := none } abortErrC1).1 rfl
  · exact (C1_disabled_single_attempt "u" ocSysErr false 2
      { status := 404, statusText := "Not Found", timeout := none } systemErrW).2.1
      rfl (by decide)
  · exact (C1_disabled_single_attempt "u" ocAbort false 2
      { status := 404, statusText := "Not Found", timeout := none } abortErrC1).2.2
      rfl rfl

/-- C2 (code bug): in the failing socket-timeout scenario (policy with
socketTimeout 500 forced, retryMaxDuration 300, no caller signal; attempt 1
gets an HTTP 500 that the default predicate retries), the timer-arming
condition of index.js line 211 holds on attempt 1 but fails on attempt 2:
line 214 stored the signal into the shared options object, so options.signal
is still set when attempt 2 starts even though socketTimeout is still
truthy.  Attempt 2 therefore runs with no cancellation timer, while the
repository test expects it to be aborted after socketTimeout ms. -/
theorem C2_socket_timer_only_first_attempt :
    (stateAt "http://127.0.0.1:8000" ocC2 0 (initialState polC2 false)).map armsTimer
      = some true
    ∧ (stateAt "http://127.0.0.1:8000" ocC2 1 (initialState polC2 false)).map armsTimer
      = some false
    ∧ (stateAt "http://127.0.0.1:8000" ocC2 1 (initialState polC2 false)).map
        (fun st => st.signalSet) = some true
    ∧ (stateAt "http://127.0.0.1:8000" ocC2 1 (initialState polC2 false)).map
        (fun st => st.ro.bind (fun p => p.socketTimeout)) = some (some 500) := by
  exact ⟨by decide, by decide, by decide, by decide⟩

/-- C6 counterexample: with a deadline exactly at resolution time, the
remaining time (0) is below the requested maxDuration (3000), yet the
effective maxDuration stays 3000: the JS truthiness guard on
timeTillActionTimeout (index.js line 81) skips the clamp when the remaining
time is 0, where the claim requires clamping to 0. -/
theorem C6_counterexample :
    (policyOf (retryInit (.opts roC6) envC6 5000)).map (fun p => p.retryMaxDuration)
      = some 3000
    ∧ ((5000 : ℚ) - 5000 < 3000)
    ∧ ((3000 : ℚ) ≠ 5000 - 5000) := by
  exact ⟨by decide, by decide, by decide⟩

/-- C6 (amended): with a known deadline d and a truthy requested maxDuration
m, when the remaining time d - now is nonzero (JS truthiness) and below m,
the effective maxDuration becomes d - now; and the clamp never increases the
effective maxDuration beyond m. -/
theorem C6_deadline_clamp (ro : UserRetryOptions) (env : Env) (now m d : ℚ)
    (p : RetryPolicy) (hm : ro.retryMaxDuration = some m) (hm0 : m ≠ 0)
    (hd : env.actionDeadline = some d)
    (hinit : retryInit (.opts ro) env now = .ok (some p)) :
    (d - now ≠ 0 → d - now < m → p.retryMaxDuration = d - now)
    ∧ p.retryMaxDuration ≤ m := by
  obtain ⟨-, hmax, -⟩ := retryInit_ok ro env now p hinit
  rw [hmax]
  have hres : resolveMaxDuration ro env now
      = if d - now ≠ 0 ∧ m > d - now then d - now else m := by
    unfold resolveMaxDuration
    rw [hm, hd]
    simp [jsOr, hm0]
  rw [hres]
  constructor
  · intro h1 h2
    rw [if_pos ⟨h1, h2⟩]
  · split
    · next hcond => exact le_of_lt hcond.2
    · exact le_refl m

/-- C6 witness: the spec scenario, a deadline 1000 ms in the future with
requested maxDuration 3000 at resolution time 0: the effective maxDuration
is clamped to 1000 and does not exceed 3000. -/
theorem C6_deadline_clamp_witness :
    pW6.retryMaxDuration = 1000 - 0 ∧ pW6.retryMaxDuration ≤ 3000 := by
  have h := C6_deadline_clamp roC6 envW6 0 3000 1000 pW6 rfl (by decide) rfl rfl
  exact ⟨h.1 (by decide) (by decide), h.2⟩

/-- C10: an explicit 0 for retryMaxDuration, retryInitialDelay or
socketTimeout passes validation but is coalesced away by the truthiness
defaulting of index.js lines 78, 84, 97 (defaults 60000, 100 and 30000 under
an empty environment), while retryBackoff = 0 is rejected by the
typeof-undefined check of line 139 with its documented message. -/
theorem C10_zero_coalescing (now : ℚ) :
    (policyOf (retryInit (.opts roC10) Env.empty now)).map (fun p => p.retryMaxDuration)
      = some 60000
    ∧ (policyOf (retryInit (.opts roC10) Env.empty now)).map (fun p => p.retryInitialDelay)
      = some 100
    ∧ (policyOf (retryInit (.opts roC10) Env.empty now)).map (fun p => p.socketTimeout)
      = some (some 30000)
    ∧ retryInit (.opts { roC10 with retryBackoff := some 0 }) Env.empty now
      = .error "`retryBackoff` must be a positive integer >= 1" := by
  refine ⟨?_, ?_, ?_, ?_⟩ <;>
    simp [retryInit, policyOf, checkParameters, truthyNum, intGE, isInteger,
      resolveMaxDuration, resolveSocketTimeout, resolvePred, jsOr, roC10,
      UserRetryOptions.empty, Env.empty, PredVal.truthyB, PredVal.isFunction,
      PredVal.strVal] <;>
    norm_num

/-- C10 witness: the coalescing facts at the concrete resolution time 42. -/
theorem C10_zero_coalescing_witness :
    (policyOf (retryInit (.opts roC10) Env.empty 42)).map (fun p => p.retryMaxDuration)
      = some 60000
    ∧ retryInit (.opts { roC10 with retryBackoff := some 0 }) Env.empty 42
      = .error "`retryBackoff` must be a positive integer >= 1" := by
  exact ⟨(C10_zero_coalescing 42).1, (C10_zero_coalescing 42).2.2.2⟩

/-- C3: for a resolved policy (truthy startTime and retryMaxDuration),
shouldRetry computes remaining = max 0 (maxDuration - elapsed) and returns
false unconditionally when remaining < nextWaitTime; otherwise it returns
the error predicate on an error outcome and the response predicate on a
response outcome. -/
theorem C3_shouldRetry_contract (r : RetryPolicy) (now w : ℚ) (o : Outcome)
    (h1 : r.startTime ≠ 0) (h2 : r.retryMaxDuration ≠ 0) :
    (max 0 (r.retryMaxDuration - (now - r.startTime)) < w →
      shouldRetry (some r) o (.num w) now = false)
    ∧ (¬ max 0 (r.retryMaxDuration - (now - r.startTime)) < w →
      shouldRetry (some r) o (.num w) now
        = match o with
          | .err e => r.retryOnHttpError e
          | .resp q => r.retryOnHttpResponse q) := by
  have hrem : getTimeRemaining (some r) now
      = .num (max 0 (r.retryMaxDuration - (now - r.startTime))) := by
    simp only [getTimeRemaining]
    rw [if_pos ⟨h1, h2⟩]
  constructor
  · intro hlt
    unfold shouldRetry
    rw [hrem]
    simp [JsNum.ltB, hlt]
  · intro hge
    have hb : JsNum.ltB (.num (max 0 (r.retryMaxDuration - (now - r.startTime))))
        (.num w) = false := by
      simp [JsNum.ltB, hge]
    unfold shouldRetry
    rw [hrem, hb]
    cases o <;> rfl

/-- C3 witness: with budget 10, start time 1 and current time 2, a wait of
1000 ms is refused outright, while a wait of 1 ms defers to the response
predicate. -/
theorem C3_shouldRetry_contract_witness :
    shouldRetry (some pW3) (.resp respW) (.num 1000) 2 = false
    ∧ shouldRetry (some pW3) (.resp respW) (.num 1) 2
      = pW3.retryOnHttpResponse respW := by
  constructor
  · exact (C3_shouldRetry_contract pW3 2 1000 (.resp respW)
      (by decide) (by decide)).1 (by decide)
  · exact (C3_shouldRetry_contract pW3 2 1 (.resp respW)
      (by decide) (by decide)).2 (by decide)

/-- C5: without forceSocketTimeout (option and environment both unset), a
supplied truthy socketTimeout that is at least the effective maxDuration is
clamped to half the effective maxDuration; with forceSocketTimeout set via
the option or via the environment variable (the string true), the raw user
value is installed untouched. -/
theorem C5_socket_timeout_clamp (ro : UserRetryOptions) (env : Env)
    (now s : ℚ) (p pf : RetryPolicy) :
    (ro.socketTimeout = some s → s ≠ 0 → ro.forceSocketTimeout = false →
      env.forceTimeout ≠ some "true" →
      retryInit (.opts ro) env now = .ok (some p) →
      p.retryMaxDuration ≤ s →
      p.socketTimeout = some (p.retryMaxDuration * (1 / 2)))
    ∧ (ro.forceSocketTimeout = true ∨ env.forceTimeout = some "true" →
      retryInit (.opts ro) env now = .ok (some pf) →
      pf.socketTimeout = ro.socketTimeout) := by
  constructor
  · intro hs hs0 hf hef hinit hge
    obtain ⟨-, hmax, -, -, -, -, hsock⟩ := retryInit_ok ro env now p hinit
    rw [hsock, hmax]
    have hforce : (ro.forceSocketTimeout || env.forceTimeout == some "true")
        = false := by
      rw [hf]
      simpa using hef
    have hv0 : jsOr ro.socketTimeout (jsOr env.socketTimeout 30000) = s := by
      simp [hs, jsOr, hs0]
    unfold resolveSocketTimeout
    rw [hforce, hv0]
    rw [hmax] at hge
    simp [if_pos hge]
  · intro hf hinit
    obtain ⟨-, -, -, -, -, -, hsock⟩ := retryInit_ok ro env now pf hinit
    rw [hsock]
    have hforce : (ro.forceSocketTimeout || env.forceTimeout == some "true")
        = true := by
      rcases hf with h | h <;> simp [h]
    unfold resolveSocketTimeout
    rw [hforce]
    simp

/-- C5 witness: requested socketTimeout 5000 against an effective
maxDuration of 1000 is clamped to 500 without force, and kept at 5000 with
force set via the option as well as with force set via the environment. -/
theorem C5_socket_timeout_clamp_witness :
    pW5.socketTimeout = some (pW5.retryMaxDuration * (1 / 2))
    ∧ pW5f.socketTimeout = roW5f.socketTimeout
    ∧ pW5f.socketTimeout = roW5.socketTimeout := by
  refine ⟨?_, ?_, ?_⟩
  · exact (C5_socket_timeout_clamp roW5 Env.empty 17 5000 pW5 pW5).1
      rfl (by decide) rfl (by decide) rfl (by decide)
  · exact (C5_socket_timeout_clamp roW5f Env.empty 17 5000 pW5f pW5f).2
      (Or.inl rfl) rfl
  · exact (C5_socket_timeout_clamp roW5 envW5f 17 5000 pW5f pW5f).2
      (Or.inr rfl) rfl

/-- C7: when the caller supplies neither predicate, the resolved response
predicate holds exactly on status at least 500, and the resolved error
predicate holds exactly on FetchError of type system and on AbortError. -/
theorem C7_default_predicates (ro : UserRetryOptions) (env : Env) (now : ℚ)
    (p : RetryPolicy) (h1 : ro.retryOnHttpResponse = .undef)
    (h2 : ro.retryOnHttpError = .undef)
    (hinit : retryInit (.opts ro) env now = .ok (some p)) :
    (∀ resp : Response, p.retryOnHttpResponse resp = true ↔ 500 ≤ resp.status)
    ∧ (∀ e : JsError, p.retryOnHttpError e = true ↔
        ((e.name = "FetchError" ∧ e.type = "system") ∨ e.name = "AbortError")) := by
  obtain ⟨-, -, -, -, hresp, herr, -⟩ := retryInit_ok ro env now p hinit
  constructor
  · intro resp
    rw [hresp, h1]
    simp [resolvePred, defaultRetryOnHttpResponse, ge_iff_le]
  · intro e
    rw [herr, h2]
    show shouldRetryOnHttpError e = true ↔ _
    unfold shouldRetryOnHttpError
    split_ifs with hA hB
    · simp [hA]
    · simp [hA, hB]
    · simp [hA, hB]

/-- C7 witness: the resolved defaults at concrete inputs: a 503 response is
retried, a 404 is not, an AbortError and a system FetchError are retried. -/
theorem C7_default_predicates_witness :
    pDefW.retryOnHttpResponse { status := 503, statusText := "", timeout := none } = true
    ∧ ¬ pDefW.retryOnHttpResponse { status := 404, statusText := "", timeout := none } = true
    ∧ pDefW.retryOnHttpError abortErrC1 = true
    ∧ pDefW.retryOnHttpError systemErrW = true := by
  have h := C7_default_predicates UserRetryOptions.empty Env.empty 1 pDefW
    rfl rfl rfl
  refine ⟨?_, ?_, ?_, ?_⟩
  · exact (h.1 _).mpr (by norm_num)
  · intro hc
    have := (h.1 _).mp hc
    norm_num at this
  · exact (h.2 abortErrC1).mpr (Or.inr rfl)
  · exact (h.2 systemErrW).mpr (Or.inl ⟨rfl, rfl⟩)

/-- C8: with retry enabled, budget exhaustion at the top of the loop and a
non-retried AbortError reject with the same FetchError of type
request-timeout whose message names the URL, and any other non-retried
error is rejected with its original identity. -/
theorem C8_timeout_failure_identity (url : String) (oc : LoopOracles)
    (st : LoopState) (p : RetryPolicy) (e : JsError) (hro : st.ro = some p) :
    (isResponseTimedOut st.ro (oc.nowAtLoopCheck st.attempt) = true →
      loopStep url oc st = .done (.rejected (fetchErrorTimeout url)))
    ∧ (isResponseTimedOut st.ro (oc.nowAtLoopCheck st.attempt) = false →
      oc.transport st.attempt = .err e →
      shouldRetry st.ro (.err e)
          (getRetryDelay st.ro (oc.rand st.attempt) true)
          (oc.nowAtRetryCheck st.attempt) = false →
      ((e.name = "AbortError" →
        loopStep url oc st = .done (.rejected (fetchErrorTimeout url)))
      ∧ (e.name ≠ "AbortError" →
        loopStep url oc st = .done (.rejected e))))
    ∧ (fetchErrorTimeout url).name = "FetchError"
    ∧ (fetchErrorTimeout url).type = "request-timeout"
    ∧ (fetchErrorTimeout url).message = "network timeout at " ++ url := by
  refine ⟨fun ht => ?_, fun ht htr hsr => ⟨fun hab => ?_, fun hnab => ?_⟩,
    rfl, rfl, rfl⟩
  · simp [loopStep, ht]
  · simp [loopStep, ht, htr, hsr, hab]
  · simp [loopStep, ht, htr, hsr, hnab]

/-- C8 witness: the three rejection shapes at concrete inputs (policy with
budget 10 starting at time 1). -/
theorem C8_timeout_failure_identity_witness :
    loopStep "u" ocW8a stW8 = .done (.rejected (fetchErrorTimeout "u"))
    ∧ loopStep "u" ocW8b stW8 = .done (.rejected (fetchErrorTimeout "u"))
    ∧ loopStep "u" ocW8c stW8 = .done (.rejected systemErrW) := by
  refine ⟨?_, ?_, ?_⟩
  · exact (C8_timeout_failure_identity "u" ocW8a stW8 pW8 abortErrC1 rfl).1
      (by decide)
  · exact ((C8_timeout_failure_identity "u" ocW8b stW8 pW8 abortErrC1 rfl).2.1
      (by decide) rfl (by decide)).1 rfl
  · exact ((C8_timeout_failure_identity "u" ocW8c stW8 pW8 systemErrW rfl).2.1
      (by decide) rfl (by decide)).2 (by decide)

/-- C4: after n unsuccessful (continuing) rounds the policy delay equals
initialDelay times backoffFactor to the n; each round wait time is that
delay plus a floored jitter in 0..99 for any Math.random draw in [0, 1);
and with backoffFactor at least 1 and nonnegative initialDelay the delay is
monotonically non-decreasing from round to round. -/
theorem C4_backoff_growth (url : String) (oc : LoopOracles) (p0 : RetryPolicy)
    (sig : Bool) (n : ℕ) (st : LoopState)
    (h : stateAt url oc n (initialState (some p0) sig) = some st) :
    (∃ q : RetryPolicy, st.ro = some q
      ∧ q.retryInitialDelay = p0.retryInitialDelay * p0.retryBackoff ^ n
      ∧ q.retryBackoff = p0.retryBackoff
      ∧ (∀ rand : ℚ, 0 ≤ rand → rand < 1 →
          ∃ j : ℤ, 0 ≤ j ∧ j ≤ 99 ∧
            getRetryDelay st.ro rand true
              = .num (p0.retryInitialDelay * p0.retryBackoff ^ n + j)))
    ∧ (1 ≤ p0.retryBackoff → 0 ≤ p0.retryInitialDelay →
        p0.retryInitialDelay * p0.retryBackoff ^ n
          ≤ p0.retryInitialDelay * p0.retryBackoff ^ (n + 1)) := by
  obtain ⟨q, hq, hdel, hback⟩ :=
    stateAt_ro_fields url oc n (initialState (some p0) sig) st p0 rfl h
  constructor
  · refine ⟨q, hq, hdel, hback, fun rand hr0 hr1 => ?_⟩
    obtain ⟨j, hj0, hj99, hjd⟩ := getRetryDelay_bounds q rand hr0 hr1
    refine ⟨j, hj0, hj99, ?_⟩
    rw [hq, hjd, hdel]
  · intro hb hd
    have hpow : p0.retryBackoff ^ n ≤ p0.retryBackoff ^ (n + 1) :=
      pow_le_pow_right hb (Nat.le_succ n)
    exact mul_le_mul_of_nonneg_left hpow hd

/-- C4 witness: after one retried round under pW4 the stored delay is the
initial 100 multiplied by the backoff factor 2 once. -/
theorem C4_backoff_growth_witness :
    (stateAt "u" ocW4 1 (initialState (some pW4) false)).map
        (fun st => st.ro.map (fun q => q.retryInitialDelay))
      = some (some (pW4.retryInitialDelay * pW4.retryBackoff ^ 1)) := by
  cases hst : stateAt "u" ocW4 1 (initialState (some pW4) false) with
  | none =>
    have hsome : (stateAt "u" ocW4 1 (initialState (some pW4) false)).isSome
        = true := rfl
    rw [hst] at hsome
    simp at hsome
  | some st =>
    obtain ⟨⟨q, hq, hdel, -⟩, -⟩ :=
      C4_backoff_growth "u" ocW4 pW4 false 1 st hst
    simp [hq, hdel]

/-- C9: a validation failure surfaces as the rejection of the wrapped call
itself, before any transport attempt (the result is the error for every
transport oracle and fuel); each malformed field raises its own message, in
the source order of the checks; and the six messages are pairwise
distinct. -/
theorem C9_validation_messages (ro : UserRetryOptions) (url : String)
    (sig : Bool) (env : Env) (now : ℚ) (oc : LoopOracles) (fuel : ℕ)
    (msg s : String) :
    (checkParameters ro = .error msg →
      fetchRetry url sig (.opts ro) env now oc fuel = .error msg)
    ∧ (truthyNum ro.retryMaxDuration = true → intGE ro.retryMaxDuration 0 = false →
      checkParameters ro = .error "`retryMaxDuration` must not be a negative integer")
    ∧ ((truthyNum ro.retryMaxDuration && !(intGE ro.retryMaxDuration 0)) = false →
      truthyNum ro.retryInitialDelay = true → intGE ro.retryInitialDelay 0 = false →
      checkParameters ro = .error "`retryInitialDelay` must not be a negative integer")
    ∧ ((truthyNum ro.retryMaxDuration && !(intGE ro.retryMaxDuration 0)) = false →
      (truthyNum ro.retryInitialDelay && !(intGE ro.retryInitialDelay 0)) = false →
      ro.retryOnHttpResponse = .nonFn true s →
      checkParameters ro
        = .error ("\x27retryOnHttpResponse\x27 must be a function: " ++ s))
    ∧ ((truthyNum ro.retryMaxDuration && !(intGE ro.retryMaxDuration 0)) = false →
      (truthyNum ro.retryInitialDelay && !(intGE ro.retryInitialDelay 0)) = false →
      (ro.retryOnHttpResponse.truthyB && !(ro.retryOnHttpResponse.isFunction)) = false →
      ro.retryOnHttpError = .nonFn true s →
      checkParameters ro
        = .error ("\x27retryOnHttpError\x27 must be a function: " ++ s))
    ∧ ((truthyNum ro.retryMaxDuration && !(intGE ro.retryMaxDuration 0)) = false →
      (truthyNum ro.retryInitialDelay && !(intGE ro.retryInitialDelay 0)) = false →
      (ro.retryOnHttpResponse.truthyB && !(ro.retryOnHttpResponse.isFunction)) = false →
      (ro.retryOnHttpError.truthyB && !(ro.retryOnHttpError.isFunction)) = false →
      ro.retryBackoff.isSome = true → intGE ro.retryBackoff 1 = false →
      checkParameters ro = .error "`retryBackoff` must be a positive integer >= 1")
    ∧ ((truthyNum ro.retryMaxDuration && !(intGE ro.retryMaxDuration 0)) = false →
      (truthyNum ro.retryInitialDelay && !(intGE ro.retryInitialDelay 0)) = false →
      (ro.retryOnHttpResponse.truthyB && !(ro.retryOnHttpResponse.isFunction)) = false →
      (ro.retryOnHttpError.truthyB && !(ro.retryOnHttpError.isFunction)) = false →
      (ro.retryBackoff.isSome && !(intGE ro.retryBackoff 1)) = false →
      truthyNum ro.socketTimeout = true → intGE ro.socketTimeout 0 = false →
      checkParameters ro = .error "`socketTimeout` must not be a negative integer")
    ∧ List.Pairwise (fun a b => a ≠ b)
      ["`retryMaxDuration` must not be a negative integer",
       "`retryInitialDelay` must not be a negative integer",
       "\x27retryOnHttpResponse\x27 must be a function: ",
       "\x27retryOnHttpError\x27 must be a function: ",
       "`retryBackoff` must be a positive integer >= 1",
       "`socketTimeout` must not be a negative integer"] := by
  refine ⟨fun hmsg => ?_, fun h1 h2 => ?_, fun hc1 h1 h2 => ?_,
    fun hc1 hc2 hr => ?_, fun hc1 hc2 hc3 hr => ?_,
    fun hc1 hc2 hc3 hc4 h1 h2 => ?_,
    fun hc1 hc2 hc3 hc4 hc5 h1 h2 => ?_, by decide⟩
  · simp [fetchRetry, retryInit, hmsg]
  · unfold checkParameters
    rw [h1, h2]
    simp
  · unfold checkParameters
    rw [hc1, h1, h2]
    simp
  · have hcond : (ro.retryOnHttpResponse.truthyB
        && !(ro.retryOnHttpResponse.isFunction)) = true := by
      rw [hr]
      rfl
    unfold checkParameters
    rw [hc1, hc2, hcond, hr]
    simp [PredVal.strVal]
  · have hcond : (ro.retryOnHttpError.truthyB
        && !(ro.retryOnHttpError.isFunction)) = true := by
      rw [hr]
      rfl
    unfold checkParameters
    rw [hc1, hc2, hc3, hcond, hr]
    simp [PredVal.strVal]
  · unfold checkParameters
    rw [hc1, hc2, hc3, hc4, h1, h2]
    simp
  · unfold checkParameters
    rw [hc1, hc2, hc3, hc4, hc5, h1, h2]
    simp

/-- C9 witness: a negative retryInitialDelay, a zero retryBackoff and a
non-callable retryOnHttpResponse each raise their documented message, and
the first of these already rejects the wrapped call for every transport. -/
theorem C9_validation_messages_witness :
    checkParameters roW9a = .error "`retryInitialDelay` must not be a negative integer"
    ∧ fetchRetry "u" false (.opts roW9a) Env.empty 7 ocAbort 3
      = .error "`retryInitialDelay` must not be a negative integer"
    ∧ checkParameters roW9b = .error "`retryBackoff` must be a positive integer >= 1"
    ∧ checkParameters roW9c
      = .error ("\x27retryOnHttpResponse\x27 must be a function: " ++ "42") := by
  have ha := (C9_validation_messages roW9a "u" false Env.empty 7 ocAbort 3
    "`retryInitialDelay` must not be a negative integer" "").2.2.1
    (by decide) (by decide) (by decide)
  refine ⟨ha, ?_, ?_, ?_⟩
  · exact (C9_validation_messages roW9a "u" false Env.empty 7 ocAbort 3
      "`retryInitialDelay` must not be a negative integer" "").1 ha
  · exact (C9_validation_messages roW9b "u" false Env.empty 7 ocAbort 3 "" "").2.2.2.2.2.1
      (by decide) (by decide) (by decide) (by decide) rfl (by decide)
  · exact (C9_validation_messages roW9c "u" false Env.empty 7 ocAbort 3 "" "42").2.2.2.1
      (by decide) (by decide) rfl

end NodeFetchRetry
